import Mathlib

/-!
Shallow embedding of the pulse-schedule timeline engine of this repository
(`qiskit/pulse/schedule/pulse_schedule.py`), the command definition table
(`qiskit/pulse/cmd_def.py`) and the pulse-to-qobj converter dispatch
(`qiskit/compiler/pulse_to_qobj.py`), together with theorems settling the
specification claims about them.

Python integers are embedded as `Int`; Python `dict`s as insertion-ordered
association lists with unique keys; methods that may `raise` as functions
returning the post-call state together with an optional error (the state
component reflects exactly the mutations performed before the `raise`).
-/

namespace QiskitPulse

/-- Modelled from the spec: the channel classes
(`qiskit/pulse/channels/*`, imported by `pulse_schedule.py`) are not under
`src/`; per the spec a channel is a kind plus a non-negative index and two
channels are equal iff kind and index match. -/
inductive ChannelKind where
  | drive
  | control
  | measure
  | acquire
  | memory
  | register
  | snapshot
  deriving DecidableEq, Repr

/-- Modelled from the spec: a hardware channel, equal iff kind and index match. -/
structure Channel where
  kind : ChannelKind
  index : Nat
  deriving DecidableEq, Repr

/-- The part of the `PulseCommand` base class that `pulse_schedule.py` uses:
a name and a fixed integer duration (`self.command.duration`). The payload
sample data is irrelevant to scheduling and not modelled. -/
structure PulseCommand where
  name : String
  duration : Int
  deriving DecidableEq, Repr

/-- `TimedPulse` from `pulse_schedule.py`: a pulse command with channel and
start-time context.  The `supported`-channel compatibility check of
`TimedPulse.__init__` depends on channel classes absent from `src/` and no
claim depends on it, so constructed instructions are taken as given. -/
structure TimedPulse where
  command : PulseCommand
  channel : Channel
  t0 : Int
  deriving DecidableEq, Repr

/-- `TimedPulse.start_time`: `return self.t0`. -/
def TimedPulse.start_time (tp : TimedPulse) : Int := tp.t0

/-- `TimedPulse.end_time`: `return self.t0 + self.command.duration`. -/
def TimedPulse.end_time (tp : TimedPulse) : Int := tp.t0 + tp.command.duration

/-- `TimedPulse.duration`: `return self.command.duration`. -/
def TimedPulse.duration (tp : TimedPulse) : Int := tp.command.duration

/-- A half-open integer time range `[lo, hi)`, as in the spec's Interval. -/
structure Interval where
  lo : Int
  hi : Int
  deriving DecidableEq, Repr

/-- The interval `[start_time, end_time)` occupied by a timed pulse. -/
def TimedPulse.interval (tp : TimedPulse) : Interval :=
  ⟨tp.start_time, tp.end_time⟩

/-- The spec's boundary-exclusive overlap test:
`overlaps(a, b)` iff `a.begin < b.end && b.begin < a.end`.  This is the
interval check inlined in `PulseSchedule._is_occupied_time`
(`pulse.start_time() < timed_pulse.end_time() and
timed_pulse.start_time() < pulse.end_time()`). -/
def overlaps (a b : Interval) : Bool :=
  decide (a.lo < b.hi) && decide (b.lo < a.hi)

/-- The exceptions the embedded methods can raise: `ScheduleError` from the
pulse module, and Python's builtin `KeyError` (raised by a `str.format` call
whose format string names a field that is not supplied). -/
inductive PyError where
  | scheduleError (msg : String)
  | keyError (key : String)
  deriving DecidableEq, Repr

/-- `PulseSchedule`: a named schedule holding a list of children.
`PulseSchedule.add_block` can only ever append a `TimedPulse` child — for a
`PulseSchedule` block `_is_occupied_time` raises `NotImplementedError`
unconditionally — so children are embedded as timed pulses. -/
structure PulseSchedule where
  name : Option String
  children : List TimedPulse
  deriving DecidableEq, Repr

/-- `PulseSchedule.__init__`: create empty schedule. -/
def PulseSchedule.empty (name : Option String) : PulseSchedule :=
  { name := name, children := [] }

/-- `PulseSchedule.flat_pulse_sequence`: after checking every child is a
`TimedPulse` (always true in this embedding), `return self._children`. -/
def PulseSchedule.flat_pulse_sequence (s : PulseSchedule) : List TimedPulse :=
  s.children

/-- `PulseSchedule._is_occupied_time`: scans `self.flat_pulse_sequence()` and
returns `True` on the first pulse on the same channel whose interval passes
the inlined strict-overlap check. -/
def PulseSchedule.is_occupied_time (s : PulseSchedule) (timed_pulse : TimedPulse) : Bool :=
  s.flat_pulse_sequence.any fun pulse =>
    pulse.channel == timed_pulse.channel &&
      decide (pulse.start_time < timed_pulse.end_time) &&
      decide (timed_pulse.start_time < pulse.end_time)

/-- `PulseSchedule.add_block` on a `TimedPulse` block: raises
`ScheduleError("Cannot add to occupied time slot.")` when
`_is_occupied_time` holds — before any mutation, so the state component is
`s` unchanged — otherwise appends the block to `self._children` in place.
Returns (post-call state of `self`, optional raised error). -/
def PulseSchedule.add_block (s : PulseSchedule) (block : TimedPulse) :
    PulseSchedule × Option PyError :=
  if s.is_occupied_time block then
    (s, some (.scheduleError "Cannot add to occupied time slot."))
  else
    ({ s with children := s.children ++ [block] }, none)

/-- `PulseSchedule.start_time`: `min([...])` over the children; Python's
`min` raises `ValueError` on an empty list, embedded as `none`. -/
def PulseSchedule.start_time (s : PulseSchedule) : Option Int :=
  (s.children.map TimedPulse.start_time).min?

/-- `PulseSchedule.end_time`: `max([...])` over the children; Python's
`max` raises `ValueError` on an empty list, embedded as `none`. -/
def PulseSchedule.end_time (s : PulseSchedule) : Option Int :=
  (s.children.map TimedPulse.end_time).max?

/-- `PulseSchedule.duration`: `return self.end_time() - self.start_time()`;
propagates the `ValueError` of either call on an empty schedule. -/
def PulseSchedule.duration (s : PulseSchedule) : Option Int :=
  match s.end_time, s.start_time with
  | some e, some b => some (e - b)
  | _, _ => none

/-- Sequential insertion: fold `add_block` over a list of instructions,
stopping at the first raised error (`PulseSchedule.add` on a list of
commands does exactly this, one `add_block` per command). -/
def PulseSchedule.add_many (s : PulseSchedule) :
    List TimedPulse → Except PyError PulseSchedule
  | [] => .ok s
  | tp :: rest =>
    match s.add_block tp with
    | (s', none) => s'.add_many rest
    | (_, some e) => .error e

/-! ### Python `dict` model

Insertion-ordered association lists with the operations `cmd_def.py` uses:
membership/lookup, item assignment (replace in place when the key is
present, append otherwise) and `pop` (remove and return). -/

/-- `k in d` / `d[k]` lookup: first binding of the key. -/
def dictLookup {κ ν : Type} [DecidableEq κ] : List (κ × ν) → κ → Option ν
  | [], _ => none
  | (k', v') :: rest, k => if k' = k then some v' else dictLookup rest k

/-- `d[k] = v`: replace the binding in place when the key is present,
append the new binding otherwise (Python dicts keep insertion order). -/
def dictSet {κ ν : Type} [DecidableEq κ] : List (κ × ν) → κ → ν → List (κ × ν)
  | [], k, v => [(k, v)]
  | (k', v') :: rest, k, v =>
    if k' = k then (k', v) :: rest else (k', v') :: dictSet rest k v

/-- `d.pop(k)`: remove the binding and return its value (with the remaining
dict); `(none, d)`-like result when the key is absent. -/
def dictPop {κ ν : Type} [DecidableEq κ] : List (κ × ν) → κ → Option ν × List (κ × ν)
  | [], _ => (none, [])
  | (k', v') :: rest, k =>
    if k' = k then (some v', rest)
    else
      let r := dictPop rest k
      (r.1, (k', v') :: r.2)

/-! ### Command definition table (`qiskit/pulse/cmd_def.py`) -/

/-- `tuple(qubits)`: an ordered qubit tuple. -/
abbrev Qubits := List Nat

/-- `CmdDef`: `self._cmd_dict` maps a command name to a dict from qubit
tuple to schedule template. -/
structure CmdDef where
  cmd_dict : List (String × List (Qubits × PulseSchedule))
  deriving DecidableEq, Repr

/-- `CmdDef.__init__`: `self._cmd_dict = {}`. -/
def CmdDef.emptyDef : CmdDef := ⟨[]⟩

/-- `CmdDef.add`, verbatim from the source:
`cmd_dict = self._cmd_dict.setdefault('cmd', {}); cmd_dict[qubits] = schedule`.
The source uses the literal key `'cmd'` and never reads `cmd_name`. -/
def CmdDef.add (cd : CmdDef) (cmd_name : String) (qubits : Qubits)
    (schedule : PulseSchedule) : CmdDef :=
  let _ := cmd_name
  let cmd_dict := (dictLookup cd.cmd_dict "cmd").getD []
  ⟨dictSet cd.cmd_dict "cmd" (dictSet cmd_dict qubits schedule)⟩

/-- `CmdDef.has_cmd`: `cmd_name in self._cmd_dict` and
`qubits in self._cmd_dict[cmd_name]`. -/
def CmdDef.has_cmd (cd : CmdDef) (cmd_name : String) (qubits : Qubits) : Bool :=
  match dictLookup cd.cmd_dict cmd_name with
  | some group => (dictLookup group qubits).isSome
  | none => false

/-- `CmdDef.get`: when `has_cmd` holds, return
`self._cmd_dict[cmd_name][qubits]` (the guard holds iff the chained lookup
is `some`, so the embedding matches on the chained lookup); `elif default:`
return the default (every schedule object is truthy, so a supplied default
is returned exactly when it is not `None`).  In the remaining branch the
source runs `raise ScheduleError('Command {name} for qubits {qubits} is not
present' 'in CmdDef'.format(cmd_name, qubits))`: the format string names
the fields `name`/`qubits` but only positional arguments are passed, so the
`.format` call itself raises `KeyError('name')` and the `ScheduleError` is
never constructed. -/
def CmdDef.get (cd : CmdDef) (cmd_name : String) (qubits : Qubits)
    (default : Option PulseSchedule) : Except PyError PulseSchedule :=
  match (dictLookup cd.cmd_dict cmd_name).bind (fun g => dictLookup g qubits) with
  | some schedule => .ok schedule
  | none =>
    match default with
    | some d => .ok d
    | none => .error (.keyError "name")

/-- `CmdDef.pop`: when `has_cmd` holds, `cmd = cmd_dict.pop(qubits)` and,
when that empties the group, `self._cmd_dict.pop(cmd_name)`; the popped
template is returned together with the post-call table.  Otherwise the
default policy of `get` applies with the table unchanged, and the
no-default branch raises `KeyError('name')` from the same malformed
`.format` call as in `get`. -/
def CmdDef.pop (cd : CmdDef) (cmd_name : String) (qubits : Qubits)
    (default : Option PulseSchedule) : Except PyError (PulseSchedule × CmdDef) :=
  match dictLookup cd.cmd_dict cmd_name with
  | some group =>
    match dictPop group qubits with
    | (some cmd, rest) =>
      if rest.isEmpty then .ok (cmd, ⟨(dictPop cd.cmd_dict cmd_name).2⟩)
      else .ok (cmd, ⟨dictSet cd.cmd_dict cmd_name rest⟩)
    | (none, _) =>
      match default with
      | some d => .ok (d, cd)
      | none => .error (.keyError "name")
  | none =>
    match default with
    | some d => .ok (d, cd)
    | none => .error (.keyError "name")

/-- `CmdDef.cmd_types`: `list(self._cmd_dict.keys())`. -/
def CmdDef.cmd_types (cd : CmdDef) : List String :=
  cd.cmd_dict.map Prod.fst

/-! ### Pulse-to-qobj converter (`qiskit/compiler/pulse_to_qobj.py`)

`PulseQobjConverter.__call__` iterates over the bound methods whose names
start with `_convert_` (in `inspect.getmembers` order, i.e. sorted by name:
acquire, drive, frame_change, persistent_value, snapshot); each method,
wrapped by `bind_instruction`, returns its qobj dict when the instruction
`isinstance`-matches its bound type and `None` otherwise.  The first truthy
result is returned.  When the loop finds none, the `for`/`else` branch
builds `PulseError('Proper qobj for %s is not found.' % ...)` without
`raise`-ing it, and the call falls through returning `None`. -/

inductive PulseInstruction where
  | acquireInst (start_time : Int) (dur : Int) (qubits mem_slots : List Nat)
  | frameChangeInst (start_time : Int) (ch : String)
  | persistentValueInst (start_time : Int) (ch : String)
  | driveInst (start_time : Int) (ch : String) (cmd_name : String)
  | snapshotInst (start_time : Int) (label : String) (snap_type : String)
  | customInst (desc : String)
  deriving DecidableEq, Repr

/-- The qobj dicts the five converter methods build.  Numeric payload
fields whose values never influence dispatch (the `fc` phase, the `pv`
complex value, discriminator/kernel options) are not carried. -/
inductive QobjInstruction where
  | acquireQobj (t0 dur : Int) (qubits memory_slot : List Nat)
  | fcQobj (t0 : Int) (ch : String)
  | pvQobj (t0 : Int) (ch : String)
  | driveQobj (cmd_name : String) (t0 : Int) (ch : String)
  | snapshotQobj (t0 : Int) (label : String) (snap_type : String)
  deriving DecidableEq, Repr

inductive PulseError where
  | pulseError (msg : String)
  deriving DecidableEq, Repr

/-- `_convert_acquire` wrapped by `bind_instruction(AcquireInstruction)`. -/
def convert_acquire : PulseInstruction → Option QobjInstruction
  | .acquireInst t0 dur qubits mem_slots => some (.acquireQobj t0 dur qubits mem_slots)
  | _ => none

/-- `_convert_drive` wrapped by `bind_instruction(DriveInstruction)`. -/
def convert_drive : PulseInstruction → Option QobjInstruction
  | .driveInst t0 ch cmd_name => some (.driveQobj cmd_name t0 ch)
  | _ => none

/-- `_convert_frame_change` wrapped by `bind_instruction(FrameChangeInstruction)`. -/
def convert_frame_change : PulseInstruction → Option QobjInstruction
  | .frameChangeInst t0 ch => some (.fcQobj t0 ch)
  | _ => none

/-- `_convert_persistent_value` wrapped by `bind_instruction(PersistentValueInstruction)`. -/
def convert_persistent_value : PulseInstruction → Option QobjInstruction
  | .persistentValueInst t0 ch => some (.pvQobj t0 ch)
  | _ => none

/-- `_convert_snapshot` wrapped by `bind_instruction(Snapshot)`. -/
def convert_snapshot : PulseInstruction → Option QobjInstruction
  | .snapshotInst t0 label snap_type => some (.snapshotQobj t0 label snap_type)
  | _ => none

/-- `PulseQobjConverter.__call__`.  Fallible code is embedded in `Except`;
this function never produces `.error` because the no-match branch only
constructs the `PulseError` (bound to `_err` here) and returns `None`. -/
def PulseQobjConverter.call (instruction : PulseInstruction) :
    Except PulseError (Option QobjInstruction) :=
  match convert_acquire instruction with
  | some d => .ok (some d)
  | none =>
    match convert_drive instruction with
    | some d => .ok (some d)
    | none =>
      match convert_frame_change instruction with
      | some d => .ok (some d)
      | none =>
        match convert_persistent_value instruction with
        | some d => .ok (some d)
        | none =>
          match convert_snapshot instruction with
          | some d => .ok (some d)
          | none =>
            let _err := PulseError.pulseError "Proper qobj for instruction is not found."
            .ok none

/-! ### Concrete fixtures -/

/-- Drive channel `D0`. -/
def chD0 : Channel := ⟨.drive, 0⟩

/-- A ten-sample pulse command. -/
def cmd10 : PulseCommand := ⟨"p0", 10⟩

/-- Instruction occupying `D0` at `[0, 10)`. -/
def tpA : TimedPulse := ⟨cmd10, chD0, 0⟩

/-- A schedule already occupying `D0` at `[0, 10)`. -/
def schedA : PulseSchedule := ⟨none, [tpA]⟩

/-- Instruction on `D0` at `[5, 15)`. -/
def tpConflict : TimedPulse := ⟨cmd10, chD0, 5⟩

/-- Instruction on `D0` at `[10, 20)`. -/
def tpOk : TimedPulse := ⟨cmd10, chD0, 10⟩

/-- Instruction on `D0` at `[0, 5)`. -/
def tpEarly : TimedPulse := ⟨⟨"p1", 5⟩, chD0, 0⟩

/-- The schedule obtained by successfully inserting `tpOk` then `tpEarly`
into the empty schedule. -/
def schedBad : PulseSchedule := ⟨none, [tpOk, tpEarly]⟩

/-! ### Helper lemmas on the dict model -/

theorem dictPop_fst {κ ν : Type} [DecidableEq κ] (l : List (κ × ν)) (k : κ) :
    (dictPop l k).1 = dictLookup l k := by
  induction l with
  | nil => rfl
  | cons hd tl ih =>
    obtain ⟨k', v'⟩ := hd
    by_cases h : k' = k <;> simp [dictPop, dictLookup, h, ih]

theorem dictPop_keys_not_mem {κ ν : Type} [DecidableEq κ] (l : List (κ × ν)) (k : κ)
    (hnodup : (l.map Prod.fst).Nodup) : k ∉ (dictPop l k).2.map Prod.fst := by
  induction l with
  | nil => simp [dictPop]
  | cons hd tl ih =>
    obtain ⟨k', v'⟩ := hd
    simp only [List.map_cons, List.nodup_cons] at hnodup
    by_cases h : k' = k
    · subst h
      simpa [dictPop] using hnodup.1
    · simp only [dictPop, if_neg h, List.map_cons, List.mem_cons, not_or]
      exact ⟨fun hk => h hk.symm, ih hnodup.2⟩

theorem dictLookup_eq_none {κ ν : Type} [DecidableEq κ] (l : List (κ × ν)) (k : κ)
    (h : k ∉ l.map Prod.fst) : dictLookup l k = none := by
  induction l with
  | nil => rfl
  | cons hd tl ih =>
    obtain ⟨k', v'⟩ := hd
    simp only [List.map_cons, List.mem_cons, not_or] at h
    have hne : ¬ (k' = k) := fun hk => h.1 hk.symm
    simp only [dictLookup, if_neg hne]
    exact ih h.2

/-! ### Claims -/

/-- C2: the conflict-detection overlap test of
`PulseSchedule._is_occupied_time` is exactly `a.begin < b.end && b.begin <
a.end`; touching intervals do not overlap (`overlaps([0,10),[10,20)) =
false`, `overlaps([0,10),[9,20)) = true`) and the test is symmetric. -/
theorem overlap_test_characterization :
    (∀ a b : Interval, overlaps a b = true ↔ a.lo < b.hi ∧ b.lo < a.hi)
    ∧ (∀ (s : PulseSchedule) (tp : TimedPulse),
        s.is_occupied_time tp =
          s.flat_pulse_sequence.any fun pulse =>
            pulse.channel == tp.channel && overlaps pulse.interval tp.interval)
    ∧ overlaps ⟨0, 10⟩ ⟨10, 20⟩ = false
    ∧ overlaps ⟨0, 10⟩ ⟨9, 20⟩ = true
    ∧ (∀ a b : Interval, overlaps a b = overlaps b a) := by
  refine ⟨fun a b => ?_, fun s tp => ?_, by decide, by decide, fun a b => ?_⟩
  · simp [overlaps]
  · simp [PulseSchedule.is_occupied_time, overlaps, TimedPulse.interval, Bool.and_assoc]
  · simp [overlaps, Bool.and_comm]

/-- C10: an instruction whose type matches none of the bound converter
methods makes `PulseQobjConverter.__call__` return `None` without raising —
the `PulseError` built on the no-match path is constructed but never
raised — and no instruction makes the call raise. -/
theorem converter_no_match_returns_none :
    (∀ desc, PulseQobjConverter.call (.customInst desc) = .ok none)
    ∧ (∀ i : PulseInstruction, ∃ r, PulseQobjConverter.call i = .ok r) := by
  refine ⟨fun desc => rfl, fun i => ?_⟩
  cases i <;> exact ⟨_, rfl⟩

/-- Helper: the occupancy scan succeeds iff some child on the same channel
has a strictly overlapping interval. -/
theorem is_occupied_iff (s : PulseSchedule) (i : TimedPulse) :
    s.is_occupied_time i = true ↔
      ∃ p ∈ s.children, p.channel = i.channel ∧ overlaps p.interval i.interval = true := by
  simp [PulseSchedule.is_occupied_time, PulseSchedule.flat_pulse_sequence, overlaps,
    TimedPulse.interval, List.any_eq_true, and_assoc]

/-- C1: `add_block` raises a conflict error iff some already-inserted
instruction on the same channel strictly overlaps the new instruction's
interval; on failure the children are unchanged (the raise precedes the
append), on success the instruction is appended.  Concretely, inserting
`[5,15)` on `D0` into a schedule occupying `D0` at `[0,10)` fails and
leaves the schedule unchanged, while inserting `[10,20)` succeeds. -/
theorem add_block_conflict_iff :
    (∀ (s : PulseSchedule) (i : TimedPulse),
      ((s.add_block i).2.isSome ↔
        ∃ p ∈ s.children, p.channel = i.channel ∧ overlaps p.interval i.interval = true)
      ∧ ((s.add_block i).2.isSome → (s.add_block i).1 = s)
      ∧ ((s.add_block i).2 = none → (s.add_block i).1.children = s.children ++ [i]))
    ∧ (schedA.add_block tpConflict).2.isSome = true
    ∧ (schedA.add_block tpConflict).1 = schedA
    ∧ (schedA.add_block tpOk).2 = none
    ∧ (schedA.add_block tpOk).1.children = schedA.children ++ [tpOk] := by
  refine ⟨fun s i => ⟨?_, ?_, ?_⟩, by decide, by decide, by decide, by decide⟩
  · rw [← is_occupied_iff]
    by_cases h : s.is_occupied_time i <;> simp [PulseSchedule.add_block, h]
  · intro hs
    by_cases h : s.is_occupied_time i <;> simp [PulseSchedule.add_block, h] at hs ⊢
  · intro hs
    by_cases h : s.is_occupied_time i <;> simp [PulseSchedule.add_block, h] at hs ⊢

/-- C1 witness: applying the theorem at the concrete success input. -/
theorem add_block_conflict_iff_witness :
    (schedA.add_block tpOk).1.children = schedA.children ++ [tpOk] :=
  (add_block_conflict_iff.1 schedA tpOk).2.2 (by decide)

/-- C9: an instruction of duration 0 on channel `c` at time `t` fails the
occupancy check iff some existing instruction on `c` has an interval
`[b, e)` with `b < t < e`; boundary placement and coinciding zero-duration
instructions therefore never conflict. -/
theorem zero_duration_conflict_iff (s : PulseSchedule) (c : Channel) (t : Int)
    (cmd : PulseCommand) (h : cmd.duration = 0) :
    s.is_occupied_time ⟨cmd, c, t⟩ = true ↔
      ∃ p ∈ s.children, p.channel = c ∧ p.start_time < t ∧ t < p.end_time := by
  simp [PulseSchedule.is_occupied_time, PulseSchedule.flat_pulse_sequence,
    TimedPulse.end_time, TimedPulse.start_time, h, and_assoc]

/-- C9 witness: a zero-duration instruction strictly inside `[0,10)`
conflicts (`t = 5`). -/
theorem zero_duration_conflict_iff_witness :
    schedA.is_occupied_time ⟨⟨"pv", 0⟩, chD0, 5⟩ = true :=
  (zero_duration_conflict_iff schedA chD0 5 ⟨"pv", 0⟩ rfl).mpr
    ⟨tpA, by simp [schedA], by simp [tpA], by decide, by decide⟩

/-- C5 counterexample: a successful `add_block` changes the schedule's
children in place — the post-call state of `self` differs from the
pre-call state — refuting "every composition operator is pure". -/
theorem add_block_mutates_counterexample :
    ((PulseSchedule.empty none).add_block tpOk).1.children ≠
      (PulseSchedule.empty none).children := by decide

/-- C5 amended: `add_block` is all-or-nothing but not pure: on failure the
raise precedes any mutation so `self` is unchanged, and on success the
instruction is appended to `self._children` in place (no new schedule is
returned). -/
theorem add_block_mutation (s : PulseSchedule) (i : TimedPulse) :
    ((s.add_block i).2.isSome → (s.add_block i).1 = s)
    ∧ ((s.add_block i).2 = none →
        (s.add_block i).1 = { s with children := s.children ++ [i] }) := by
  by_cases h : s.is_occupied_time i <;> constructor <;> intro hs <;>
    simp [PulseSchedule.add_block, h] at hs ⊢

/-- C5 amended witness: applying the theorem at a concrete success input. -/
theorem add_block_mutation_witness :
    ((PulseSchedule.empty none).add_block tpOk).1 =
      { PulseSchedule.empty none with
          children := (PulseSchedule.empty none).children ++ [tpOk] } :=
  (add_block_mutation (PulseSchedule.empty none) tpOk).2 rfl

/-- C3 counterexample: inserting `[10,20)` then `[0,5)` on `D0` succeeds,
and flattening returns the children in insertion order with start times
`[10, 0]`, which is not non-decreasing. -/
theorem flatten_unsorted_counterexample :
    (PulseSchedule.empty none).add_many [tpOk, tpEarly] = .ok schedBad
    ∧ (schedBad.flat_pulse_sequence.map TimedPulse.start_time) = [10, 0]
    ∧ ¬ List.Sorted (· ≤ ·) (schedBad.flat_pulse_sequence.map TimedPulse.start_time) := by
  refine ⟨rfl, rfl, ?_⟩
  intro hsort
  simp [schedBad, PulseSchedule.flat_pulse_sequence, tpOk, tpEarly,
    TimedPulse.start_time, List.Sorted] at hsort

/-- C3 amended: flattening a schedule built by successful insertions
yields the leaf instructions in insertion order (which need not be sorted
by start time). -/
theorem add_many_flatten_insertion_order (s : PulseSchedule) (tps : List TimedPulse)
    (s' : PulseSchedule) (h : s.add_many tps = .ok s') :
    s'.flat_pulse_sequence = s.flat_pulse_sequence ++ tps := by
  induction tps generalizing s with
  | nil =>
    simp only [PulseSchedule.add_many, Except.ok.injEq] at h
    subst h
    simp
  | cons tp rest ih =>
    simp only [PulseSchedule.add_many] at h
    by_cases hocc : s.is_occupied_time tp
    · simp [PulseSchedule.add_block, hocc] at h
    · simp only [PulseSchedule.add_block, if_neg hocc] at h
      have hflat := ih _ h
      simp only [PulseSchedule.flat_pulse_sequence] at hflat ⊢
      rw [hflat]
      simp

/-- C3 amended witness: applying the theorem at the concrete two-insertion
input. -/
theorem add_many_flatten_insertion_order_witness :
    schedBad.flat_pulse_sequence =
      (PulseSchedule.empty none).flat_pulse_sequence ++ [tpOk, tpEarly] :=
  add_many_flatten_insertion_order (PulseSchedule.empty none) [tpOk, tpEarly] schedBad rfl

/-- C6 counterexample: on the empty schedule, `start_time`, `end_time` and
`duration` all fail (`min`/`max` of an empty list raises `ValueError`,
embedded as `none`) instead of returning 0. -/
theorem empty_schedule_times_counterexample :
    (PulseSchedule.empty none).start_time = none
    ∧ (PulseSchedule.empty none).end_time = none
    ∧ (PulseSchedule.empty none).duration = none
    ∧ (PulseSchedule.empty none).start_time ≠ some 0 :=
  ⟨rfl, rfl, rfl, by decide⟩

/-- C6 amended: for every non-empty schedule, `start_time`, `end_time` and
`duration` are defined and `duration = end_time - start_time`; on the
empty schedule all three fail rather than returning 0. -/
theorem duration_eq_end_sub_start (s : PulseSchedule) (h : s.children ≠ []) :
    ∃ b e, s.start_time = some b ∧ s.end_time = some e ∧ s.duration = some (e - b) := by
  obtain ⟨hd, tl, hchild⟩ : ∃ hd tl, s.children = hd :: tl := by
    cases hc : s.children with
    | nil => exact absurd hc h
    | cons hd tl => exact ⟨hd, tl, rfl⟩
  refine ⟨(tl.map TimedPulse.start_time).foldl min hd.start_time,
          (tl.map TimedPulse.end_time).foldl max hd.end_time, ?_, ?_, ?_⟩
  · simp [PulseSchedule.start_time, hchild, List.min?]
  · simp [PulseSchedule.end_time, hchild, List.max?]
  · simp [PulseSchedule.duration, PulseSchedule.start_time, PulseSchedule.end_time,
      hchild, List.min?, List.max?]

/-- C6 amended witness: applying the theorem at a concrete non-empty
schedule. -/
theorem duration_eq_end_sub_start_witness :
    ∃ b e, schedA.start_time = some b ∧ schedA.end_time = some e
      ∧ schedA.duration = some (e - b) :=
  duration_eq_end_sub_start schedA (by decide)

/-- C4: `CmdDef.add` stores the template under the literal key `'cmd'` and
ignores `cmd_name`, so after `add("u1", (0,), t)` the lookup `get("u1",
(0,))` fails (the table has no key `"u1"`) while the template sits under
`"cmd"`; `pop("u1", (0,))` fails the same way. -/
theorem cmd_def_add_ignores_name :
    ((CmdDef.emptyDef.add "u1" [0] (PulseSchedule.empty none)).get "u1" [0] none
        = .error (.keyError "name"))
    ∧ ((CmdDef.emptyDef.add "u1" [0] (PulseSchedule.empty none)).has_cmd "u1" [0] = false)
    ∧ ((CmdDef.emptyDef.add "u1" [0] (PulseSchedule.empty none)).get "cmd" [0] none
        = .ok (PulseSchedule.empty none))
    ∧ ((CmdDef.emptyDef.add "u1" [0] (PulseSchedule.empty none)).pop "u1" [0] none
        = .error (.keyError "name")) :=
  ⟨rfl, rfl, rfl, rfl⟩

/-- C7: on a missing key, `get` and `pop` return a supplied default (and
leave the table unchanged) and never raise; with no default the failure
branch raises `KeyError('name')` — the malformed `.format` call fires
before the `ScheduleError` naming the command can be built. -/
theorem cmd_def_missing_key_policy :
    (∀ (cd : CmdDef) (n : String) (q : Qubits) (d : PulseSchedule),
        cd.has_cmd n q = false →
          cd.get n q (some d) = .ok d ∧ cd.pop n q (some d) = .ok (d, cd))
    ∧ CmdDef.emptyDef.get "u1" [0] none = .error (.keyError "name")
    ∧ CmdDef.emptyDef.pop "u1" [0] none = .error (.keyError "name") := by
  refine ⟨fun cd n q d h => ⟨?_, ?_⟩, rfl, rfl⟩
  · unfold CmdDef.get
    cases houter : dictLookup cd.cmd_dict n with
    | none => simp
    | some g =>
      have hinner : dictLookup g q = none := by
        unfold CmdDef.has_cmd at h
        rw [houter] at h
        simpa using h
      simp [hinner]
  · unfold CmdDef.pop
    cases houter : dictLookup cd.cmd_dict n with
    | none => simp
    | some g =>
      have hinner : dictLookup g q = none := by
        unfold CmdDef.has_cmd at h
        rw [houter] at h
        simpa using h
      cases hp : dictPop g q with
      | mk fst snd =>
        have hfst : fst = none := by
          have h1 := dictPop_fst g q
          rw [hp] at h1
          simpa [hinner] using h1
        subst hfst
        simp [hp]

/-- C7 witness: applying the theorem on the empty table with an explicit
default. -/
theorem cmd_def_missing_key_policy_witness :
    CmdDef.emptyDef.get "u1" [0] (some (PulseSchedule.empty none))
        = .ok (PulseSchedule.empty none)
    ∧ CmdDef.emptyDef.pop "u1" [0] (some (PulseSchedule.empty none))
        = .ok (PulseSchedule.empty none, CmdDef.emptyDef) :=
  cmd_def_missing_key_policy.1 CmdDef.emptyDef "u1" [0] (PulseSchedule.empty none) rfl

/-- C8: when `pop` evicts the only entry stored under a name, the emptied
group is removed: the name leaves `cmd_types`, `has_cmd` is false for
every qubit tuple, and the evicted template is returned. -/
theorem pop_last_entry_removes_group (cd : CmdDef) (n : String) (q : Qubits)
    (t : PulseSchedule) (hnodup : (cd.cmd_dict.map Prod.fst).Nodup)
    (hgroup : dictLookup cd.cmd_dict n = some [(q, t)]) :
    ∃ cd', cd.pop n q none = .ok (t, cd')
      ∧ n ∉ cd'.cmd_types
      ∧ ∀ q', cd'.has_cmd n q' = false := by
  refine ⟨⟨(dictPop cd.cmd_dict n).2⟩, ?_, ?_, ?_⟩
  · unfold CmdDef.pop
    rw [hgroup]
    simp [dictPop]
  · simpa [CmdDef.cmd_types] using dictPop_keys_not_mem cd.cmd_dict n hnodup
  · intro q'
    have hnone : dictLookup (dictPop cd.cmd_dict n).2 n = none :=
      dictLookup_eq_none _ _ (dictPop_keys_not_mem cd.cmd_dict n hnodup)
    simp [CmdDef.has_cmd, hnone]

/-- C8 witness: applying the theorem on a one-name, one-entry table. -/
theorem pop_last_entry_removes_group_witness :
    ∃ cd', (CmdDef.mk [("x1", [([0], PulseSchedule.empty none)])]).pop "x1" [0] none
        = .ok (PulseSchedule.empty none, cd')
      ∧ "x1" ∉ cd'.cmd_types
      ∧ ∀ q', cd'.has_cmd "x1" q' = false :=
  pop_last_entry_removes_group _ "x1" [0] _ (by decide) rfl

end QiskitPulse
